import Mathlib

/-!
Verification development for the cursor-based timeline query layer of a
blockchain REST server (catapult-rest). The JavaScript sources are embedded
shallowly: MongoDB collections become Lean lists, cursor pipelines become
filter / sort / take chains on those lists, promises returning undefined
become Option, and the generic Timeline dispatcher becomes an inductive type
of entry kinds together with an executable interpreter that also counts the
number of store queries issued.
-/

/- ======================================================================
Timeline engine (db/Timeline.js).
The class binds named methods built from four callback kinds: empty,
absolute, record and identifier. Sentinel constants come from the region
named sentinel values.
====================================================================== -/

/-- Minimum signed long sentinel, new Long(0, 0). -/
def Timeline.minLong : Int := 0

/-- Maximum signed long sentinel, new Long(0xFFFFFFFF, 0x7FFFFFFF). -/
def Timeline.maxLong : Int := 0x7FFFFFFFFFFFFFFF

/-- Minimum object id sentinel, ObjectId of twenty four zero digits. -/
def Timeline.minObjectId : Int := 0

/-- Maximum object id sentinel, ObjectId of twenty four F digits. -/
def Timeline.maxObjectId : Int := 0xFFFFFFFFFFFFFFFFFFFFFFFF

/-- Store interface seen by the timeline engine: `call` dispatches a range
query method by name (method name, collection name, argument list) and
`lookup` dispatches an id lookup method by name, returning none when the
query resolves to no document (the JavaScript undefined). Arguments are
modelled as integers, covering Long heights, object ids and counts. -/
structure TimelineDb (ρ : Type) where
  call : String → String → List Int → List ρ
  lookup : String → String → Int → Option ρ

/-- One timeline entry, tagged by its operation kind exactly as the `type`
field of the options passed to the Timeline constructor. -/
inductive TimelineEntry (ρ : Type) where
  | empty : TimelineEntry ρ
  | absolute (methodName : String) (generateArgs : List Int) : TimelineEntry ρ
  | record (methodName : String) (generateArgs : ρ → List Int)
      (rec? : Option ρ) : TimelineEntry ρ
  | identifier (idMethodName : String) (methodName : String)
      (generateArgs : ρ → List Int) : TimelineEntry ρ

/-- Result of invoking one timeline method: the resolved value (none models a
promise resolving to undefined) paired with the number of store queries the
invocation issued. -/
abbrev TimelineRun (ρ : Type) := Option (List ρ) × Nat

/-- Timeline.record: if no record was provided the undefined result is
propagated; if the trailing count argument is 0 the result is the empty
array without a store query; otherwise the named store method is called with
the extracted record arguments followed by the user arguments. -/
def Timeline.recordRun (db : TimelineDb ρ) (methodName : String)
    (generateArgs : ρ → List Int) (rec? : Option ρ)
    (collectionName : String) (args : List Int) : TimelineRun ρ :=
  match rec? with
  | none => (none, 0)
  | some r =>
    if args.getLast? = some 0 then (some [], 0)
    else (some (db.call methodName collectionName (generateArgs r ++ args)), 1)

/-- Interpreter for the four timeline operation kinds of db/Timeline.js.
empty resolves to the empty array; absolute checks the trailing count then
calls the store method with synthesized sentinel arguments; record behaves
as `Timeline.recordRun`; identifier first issues the id lookup query and
then continues as record with the looked up document. -/
def Timeline.exec (db : TimelineDb ρ) :
    TimelineEntry ρ → String → List Int → TimelineRun ρ
  | .empty, _, _ => (some [], 0)
  | .absolute methodName generateArgs, collectionName, args =>
    if args.getLast? = some 0 then (some [], 0)
    else (some (db.call methodName collectionName (generateArgs ++ args)), 1)
  | .record methodName generateArgs rec?, collectionName, args =>
    Timeline.recordRun db methodName generateArgs rec? collectionName args
  | .identifier idMethodName methodName generateArgs, collectionName, args =>
    match args with
    | [] => (none, 1)
    | id :: rest =>
      let rec? := db.lookup idMethodName collectionName id
      let out := Timeline.recordRun db methodName generateArgs rec? collectionName rest
      (out.fst, out.snd + 1)

/-- Options record consumed by `Timeline.generateAbsoluteParameters`. -/
structure AbsoluteParametersInfo where
  baseMethodName : String
  generateMinArgs : List Int
  generateMaxArgs : List Int

/-- The four entries emitted by `Timeline.generateAbsoluteParameters`. -/
structure AbsoluteParameters (ρ : Type) where
  fromMin : TimelineEntry ρ
  fromMax : TimelineEntry ρ
  sinceMin : TimelineEntry ρ
  sinceMax : TimelineEntry ρ

/-- Timeline.generateAbsoluteParameters: fromMin and sinceMax are empty
entries; fromMax is an absolute entry on base + From seeded with the max
arguments; sinceMin is an absolute entry on base + Since seeded with the min
arguments. -/
def Timeline.generateAbsoluteParameters (info : AbsoluteParametersInfo) :
    AbsoluteParameters ρ where
  fromMin := .empty
  fromMax := .absolute (info.baseMethodName ++ "From") info.generateMaxArgs
  sinceMin := .absolute (info.baseMethodName ++ "Since") info.generateMinArgs
  sinceMax := .empty

/-- Options record consumed by `Timeline.generateIdParameters`. -/
structure IdParametersInfo (ρ : Type) where
  keyName : String
  baseMethodName : String
  idMethodName : String
  generateArgs : ρ → List Int

/-- The two entries emitted by `Timeline.generateIdParameters`, bound under
the names from + keyName and since + keyName. -/
structure IdParameters (ρ : Type) where
  fromKey : TimelineEntry ρ
  sinceKey : TimelineEntry ρ

/-- Timeline.generateIdParameters: both entries are identifier entries
sharing the id lookup method, pointing at base + From and base + Since. -/
def Timeline.generateIdParameters (info : IdParametersInfo ρ) : IdParameters ρ where
  fromKey := .identifier info.idMethodName (info.baseMethodName ++ "From")
    info.generateArgs
  sinceKey := .identifier info.idMethodName (info.baseMethodName ++ "Since")
    info.generateArgs

/- ======================================================================
Response mapping (routes/routeUtils.js, queryAndSendTimeline).
====================================================================== -/

/-- HTTP response produced by queryAndSendTimeline: a not found error (404)
or a 200 payload. -/
inductive TimelineResponse (ρ : Type) where
  | notFound : TimelineResponse ρ
  | okPayload (payload : List ρ) : TimelineResponse ρ
deriving DecidableEq

/-- routeUtils.queryAndSendTimeline result mapping: an undefined timeline
result is sent as a not found error, every defined result is sent as a 200
payload (possibly the empty array). -/
def queryAndSendTimeline (data : Option (List ρ)) : TimelineResponse ρ :=
  match data with
  | none => .notFound
  | some payload => .okPayload payload

/- ======================================================================
Document model. MongoDB documents of the collections touched by the cursor
layer. Fields kept are exactly those the embedded queries read. Account
documents carry an optional meta.publicKeyHeight path: the indexer never
writes it (accounts store the height under account.publicKeyHeight), so in
every store built by the indexer the field is none.
====================================================================== -/

/-- Transaction document: meta.height, meta.index, transaction.type,
meta.aggregateId (present only on embedded sub transactions),
transaction.mosaics (mosaic ids), meta.addresses, meta.id and meta.hash. -/
structure Transaction where
  height : Nat
  index : Int
  txType : Nat
  aggregateId : Option Nat
  mosaics : List Nat
  addresses : List Nat
  id : Nat
  hash : Nat
deriving DecidableEq, Repr

/-- Block document: block.height plus meta.hash and the internal id. -/
structure Block where
  height : Nat
  hash : Nat
  id : Nat
deriving DecidableEq, Repr

/-- Account document: account.importances snapshots (value, height) in
chronological order, account.publicKeyHeight, account.activityBuckets
reduced to their totalFeesPaid entries, account.mosaics as (id, amount)
pairs, account.address and the internal id. metaPublicKeyHeight models the
meta.publicKeyHeight path, absent (none) on documents the indexer writes. -/
structure Account where
  importances : List (Nat × Nat)
  publicKeyHeight : Nat
  activityBuckets : List Nat
  mosaics : List (Nat × Nat)
  address : Nat
  metaPublicKeyHeight : Option Nat
  id : Nat
deriving DecidableEq, Repr

/-- Namespace document: namespace.startHeight, meta.active,
namespace.level0 to level2, namespace.depth, namespace.alias.mosaicId and
the internal id. -/
structure NamespaceDoc where
  startHeight : Nat
  active : Bool
  level0 : Nat
  level1 : Nat
  level2 : Nat
  depth : Nat
  aliasMosaicId : Nat
  id : Nat
deriving DecidableEq, Repr

/- ======================================================================
Computed account fields (CatapultDb cursor account helpers and
NamespaceDb.addFieldMosaicBalance). These are the $addFields expressions
evaluated on one account document.
====================================================================== -/

/-- addFieldImportance: the value of the last importances entry, or 0 when
the importances array is empty. -/
def addFieldImportance (a : Account) : Nat :=
  match a.importances.getLast? with
  | some snapshot => snapshot.fst
  | none => 0

/-- addFieldImportanceHeight: the height of the last importances entry, or 0
when the importances array is empty. -/
def addFieldImportanceHeight (a : Account) : Nat :=
  match a.importances.getLast? with
  | some snapshot => snapshot.snd
  | none => 0

/-- addFieldHarvestedBlocks: the size of account.activityBuckets. -/
def addFieldHarvestedBlocks (a : Account) : Nat :=
  a.activityBuckets.length

/-- addFieldHarvestedFees: sum reduce over totalFeesPaid in
account.activityBuckets. -/
def addFieldHarvestedFees (a : Account) : Nat :=
  a.activityBuckets.foldl (· + ·) 0

/-- addFieldMosaicBalance: reduce over account.mosaics adding the amount
whenever the mosaic id matches, otherwise adding 0. -/
def addFieldMosaicBalance (mosaicId : Nat) (a : Account) : Nat :=
  a.mosaics.foldl
    (fun value entry => value + if entry.fst == mosaicId then entry.snd else 0) 0

/- ======================================================================
Generic cursor pipeline. Every sorted* helper of the source runs
find(condition).sort(initialSort).limit(count).sort(finalSort), that is:
filter, sort in the scan direction so the limit keeps the rows nearest the
anchor, cut to count rows, then re-sort descending for presentation.
====================================================================== -/

/-- Pipeline shared by the sorted* helpers: filter by the match condition,
sort by the initial sort, limit to count, then apply the final sort. Sorting
is modelled by insertion sort, a stable sort agreeing with the Mongo sort
stages up to the order of key ties. -/
def findSortLimitSort (condition : ρ → Bool) (initialSort finalSort : ρ → ρ → Prop)
    [DecidableRel initialSort] [DecidableRel finalSort]
    (count : Nat) (collection : List ρ) : List ρ :=
  List.insertionSort finalSort
    ((List.insertionSort initialSort (collection.filter condition)).take count)

/-- Comparator for a Mongo sort document over the composite key `key`:
ascending when the order is 1, descending when the order is -1. -/
def keySortLe (key : ρ → K) [LinearOrder K] : Bool → ρ → ρ → Prop
  | true, a, b => key a ≤ key b
  | false, a, b => key b ≤ key a

instance (key : ρ → K) [LinearOrder K] :
    ∀ sortAscending : Bool, DecidableRel (keySortLe key sortAscending)
  | true, a, b => inferInstanceAs (Decidable (key a ≤ key b))
  | false, a, b => inferInstanceAs (Decidable (key b ≤ key a))

/- ======================================================================
Cursor transaction retrieval (CatapultDb).
====================================================================== -/

/-- Sort key of the transaction timelines: meta.height then meta.index. -/
def txKey (t : Transaction) : Lex (Nat × Int) :=
  toLex (t.height, t.index)

/-- CatapultDb.sortedTransactions: initial sort by (meta.height, meta.index)
in the scan direction, limit, final sort descending. The aggregate inner
transaction attachment performed afterwards mutates returned parents in
place and does not change the returned list. -/
def sortedTransactions (collection : List Transaction)
    (condition : Transaction → Bool) (sortAscending : Bool) (count : Nat) :
    List Transaction :=
  findSortLimitSort condition (keySortLe txKey sortAscending) (keySortLe txKey false)
    count collection

/-- Match condition of CatapultDb.transactionsFrom: no meta.aggregateId and
lexicographically below the (height, index) anchor. -/
def transactionsFromCondition (height : Nat) (index : Int) (t : Transaction) :
    Bool :=
  t.aggregateId.isNone &&
    ((t.height == height && t.index < index) || t.height < height)

/-- Match condition of CatapultDb.transactionsSince: no meta.aggregateId and
lexicographically above the (height, index) anchor. -/
def transactionsSinceCondition (height : Nat) (index : Int) (t : Transaction) :
    Bool :=
  t.aggregateId.isNone &&
    ((t.height == height && t.index > index) || t.height > height)

/-- CatapultDb.transactionsFrom: transactions strictly before the anchor,
scanned descending, at most count items. -/
def transactionsFrom (collection : List Transaction) (height : Nat) (index : Int)
    (count : Nat) : List Transaction :=
  sortedTransactions collection (transactionsFromCondition height index) false count

/-- CatapultDb.transactionsSince: transactions strictly after the anchor,
scanned ascending, at most count items. -/
def transactionsSince (collection : List Transaction) (height : Nat) (index : Int)
    (count : Nat) : List Transaction :=
  sortedTransactions collection (transactionsSinceCondition height index) true count

/- ======================================================================
Cursor block retrieval (CatapultDb).
====================================================================== -/

/-- CatapultDb.calculateFromHeight: clamp the end height to chain height
plus one, then step back count blocks without going below height 1. -/
def calculateFromHeight (height chainHeight numBlocks : Nat) : Nat × Nat :=
  let endHeight := if height > chainHeight then chainHeight + 1 else height
  let startHeight := if endHeight > numBlocks then endHeight - numBlocks else 1
  (startHeight, endHeight)

/-- CatapultDb.calculateSinceHeight: clamp the start height to chain height
plus one, the end height is start plus count. -/
def calculateSinceHeight (height chainHeight numBlocks : Nat) : Nat × Nat :=
  let startHeight := if height > chainHeight then chainHeight + 1 else height
  (startHeight, startHeight + numBlocks)

/-- CatapultDb.sortedBlocks: find by the height range condition, sort by
descending block.height only (block heights are unique so no initial
ascending pass is needed), limit to count. -/
def sortedBlocks (collection : List Block) (condition : Block → Bool)
    (count : Nat) : List Block :=
  (List.insertionSort (keySortLe Block.height false)
    (collection.filter condition)).take count

/-- CatapultDb.blocksv2From: blocks with height in the half open interval
given by calculateFromHeight, descending, at most count items. The chain
height read from the chainStatistic collection is passed explicitly. -/
def blocksv2From (collection : List Block) (chainHeight : Nat)
    (height count : Nat) : List Block :=
  if count = 0 then []
  else
    let hs := calculateFromHeight height chainHeight count
    sortedBlocks collection (fun b => hs.fst ≤ b.height && b.height < hs.snd) count

/-- CatapultDb.blocksv2Since: blocks with height in the half open interval
given by calculateSinceHeight, descending, at most count items. -/
def blocksv2Since (collection : List Block) (chainHeight : Nat)
    (height count : Nat) : List Block :=
  if count = 0 then []
  else
    let hs := calculateSinceHeight height chainHeight count
    sortedBlocks collection (fun b => hs.fst < b.height && b.height ≤ hs.snd) count

/-- Binding of the sinceMin entry of the block timeline: blockMinArgs seeds
blocksv2Since with Timeline.minLong, that is anchor height 0, so the route
blocks slash since slash min runs blocksv2Since at height 0. -/
def blocksSinceMin (collection : List Block) (chainHeight : Nat) (limit : Nat) :
    List Block :=
  blocksv2Since collection chainHeight 0 limit

/- ======================================================================
Cursor account retrieval (CatapultDb).
====================================================================== -/

/-- Sort key of sortedAccountsByImportance: account.importance (computed),
then account.publicKeyHeight, then the internal id, all in one direction. -/
def importanceKey (a : Account) : Lex (Nat × Lex (Nat × Nat)) :=
  toLex (addFieldImportance a, toLex (a.publicKeyHeight, a.id))

/-- CatapultDb.sortedAccountsByImportance: add the computed importance
fields, match, initial sort in the scan direction, limit, final sort
descending. -/
def sortedAccountsByImportance (collection : List Account)
    (matchCondition : Account → Bool) (sortAscending : Bool) (count : Nat) :
    List Account :=
  findSortLimitSort matchCondition (keySortLe importanceKey sortAscending)
    (keySortLe importanceKey false) count collection

/-- Sort key of sortedAccountsByHarvestedBlocks. -/
def harvestedBlocksKey (a : Account) : Lex (Nat × Lex (Nat × Nat)) :=
  toLex (addFieldHarvestedBlocks a, toLex (a.publicKeyHeight, a.id))

/-- CatapultDb.sortedAccountsByHarvestedBlocks. -/
def sortedAccountsByHarvestedBlocks (collection : List Account)
    (matchCondition : Account → Bool) (sortAscending : Bool) (count : Nat) :
    List Account :=
  findSortLimitSort matchCondition (keySortLe harvestedBlocksKey sortAscending)
    (keySortLe harvestedBlocksKey false) count collection

/-- Sort key of sortedAccountsByHarvestedFees: harvestedFees, then
harvestedBlocks as an extra tie breaker, then publicKeyHeight, then id. -/
def harvestedFeesKey (a : Account) : Lex (Nat × Lex (Nat × Lex (Nat × Nat))) :=
  toLex (addFieldHarvestedFees a,
    toLex (addFieldHarvestedBlocks a, toLex (a.publicKeyHeight, a.id)))

/-- CatapultDb.sortedAccountsByHarvestedFees. -/
def sortedAccountsByHarvestedFees (collection : List Account)
    (matchCondition : Account → Bool) (sortAscending : Bool) (count : Nat) :
    List Account :=
  findSortLimitSort matchCondition (keySortLe harvestedFeesKey sortAscending)
    (keySortLe harvestedFeesKey false) count collection

/-- Ordering operator selector of accountMatchCondition, $lt or $gt. -/
inductive MongoOrdering where
  | lt : MongoOrdering
  | gt : MongoOrdering
deriving DecidableEq, Repr

/-- Evaluation of the ordering operator on present numeric values. -/
def MongoOrdering.apply : MongoOrdering → Nat → Nat → Bool
  | .lt, a, b => a < b
  | .gt, a, b => a > b

/-- MongoDB equality comparison of a possibly absent document path against a
Long value: a document missing the path never matches. -/
def mongoPathEq : Option Nat → Nat → Bool
  | some x, v => x == v
  | none, _ => false

/-- MongoDB range comparison of a possibly absent document path against a
Long value: with type bracketing a document missing the path never matches
$lt or $gt against a number. -/
def mongoPathOrd (ordering : MongoOrdering) : Option Nat → Nat → Bool
  | some x, v => ordering.apply x v
  | none, _ => false

/-- CatapultDb.accountMatchCondition built over a computed account field:
match if the field is below (resp. above) the value, or, on a field tie, if
the meta.publicKeyHeight path equals the anchor height and the id is below
(resp. above) the anchor id, or the meta.publicKeyHeight path is below
(resp. above) the anchor height. The source addresses the tie breaker at
meta.publicKeyHeight even though account documents store the height at
account.publicKeyHeight, so the two inner clauses compare a path that the
indexer never writes. -/
def accountMatchCondition (field : Account → Nat) (ordering : MongoOrdering)
    (value height id : Nat) (a : Account) : Bool :=
  ordering.apply (field a) value ||
    (field a == value &&
      ((mongoPathEq a.metaPublicKeyHeight height && ordering.apply a.id id) ||
        mongoPathOrd ordering a.metaPublicKeyHeight height))

/-- CatapultDb.accountsByImportanceFrom. -/
def accountsByImportanceFrom (collection : List Account)
    (importance height id numAccounts : Nat) : List Account :=
  sortedAccountsByImportance collection
    (accountMatchCondition addFieldImportance .lt importance height id) false
    numAccounts

/-- CatapultDb.accountsByImportanceSince. -/
def accountsByImportanceSince (collection : List Account)
    (importance height id numAccounts : Nat) : List Account :=
  sortedAccountsByImportance collection
    (accountMatchCondition addFieldImportance .gt importance height id) true
    numAccounts

/-- CatapultDb.accountsByHarvestedFeesFrom. -/
def accountsByHarvestedFeesFrom (collection : List Account)
    (harvestedFees height id numAccounts : Nat) : List Account :=
  sortedAccountsByHarvestedFees collection
    (accountMatchCondition addFieldHarvestedFees .lt harvestedFees height id)
    false numAccounts

/-- CatapultDb.accountsByHarvestedFeesSince. -/
def accountsByHarvestedFeesSince (collection : List Account)
    (harvestedFees height id numAccounts : Nat) : List Account :=
  sortedAccountsByHarvestedFees collection
    (accountMatchCondition addFieldHarvestedFees .gt harvestedFees height id)
    true numAccounts

/- ======================================================================
Cursor namespace retrieval and well known mosaics (NamespaceDb).
====================================================================== -/

/-- Network currency namespace id, uint64.fromHex 85bbea6cc462b244. -/
def CURRENCY_ID : Nat := 0x85bbea6cc462b244

/-- Network harvest namespace id, uint64.fromHex 941299b2b7e1291c. -/
def HARVEST_ID : Nat := 0x941299b2b7e1291c

/-- XEM namespace id, uint64.fromHex d525ad41d95fcf29. -/
def XEM_ID : Nat := 0xd525ad41d95fcf29

/-- Sort key of sortedNamespaces: namespace.startHeight then the internal
id. -/
def nsKey (n : NamespaceDoc) : Lex (Nat × Nat) :=
  toLex (n.startHeight, n.id)

/-- NamespaceDb.sortedNamespaces: initial sort by (startHeight, id) in the
scan direction, limit, final sort descending. -/
def sortedNamespaces (collection : List NamespaceDoc)
    (condition : NamespaceDoc → Bool) (sortAscending : Bool) (count : Nat) :
    List NamespaceDoc :=
  findSortLimitSort condition (keySortLe nsKey sortAscending)
    (keySortLe nsKey false) count collection

/-- NamespaceDb.rawNamespaceById: findOne over the disjunction of the three
depth levels, each conjoined with the active condition and the matching
depth; queryDocument returns the first matching document or none. -/
def rawNamespaceById (collection : List NamespaceDoc) (id : Nat) :
    Option NamespaceDoc :=
  collection.find? fun ns =>
    (ns.active && ns.level0 == id && ns.depth == 1) ||
    (ns.active && ns.level1 == id && ns.depth == 2) ||
    (ns.active && ns.level2 == id && ns.depth == 3)

/-- NamespaceDb.networkCurrencyMosaic: resolve the currency namespace and
read its alias mosaic id; none if the namespace is absent. -/
def networkCurrencyMosaic (namespaces : List NamespaceDoc) : Option Nat :=
  (rawNamespaceById namespaces CURRENCY_ID).map NamespaceDoc.aliasMosaicId

/-- Sort key of sortedAccountsByMosaicBalance for a resolved mosaic id. -/
def balanceKey (mosaicId : Nat) (a : Account) : Lex (Nat × Lex (Nat × Nat)) :=
  toLex (addFieldMosaicBalance mosaicId a, toLex (a.publicKeyHeight, a.id))

/-- NamespaceDb.sortedAccountsByMosaicBalance. -/
def sortedAccountsByMosaicBalance (collection : List Account) (mosaicId : Nat)
    (matchCondition : Account → Bool) (sortAscending : Bool) (count : Nat) :
    List Account :=
  findSortLimitSort matchCondition (keySortLe (balanceKey mosaicId) sortAscending)
    (keySortLe (balanceKey mosaicId) false) count collection

/-- NamespaceDb.sortedAccountsByCurrencyBalance: resolve the currency mosaic
first and propagate the undefined outcome when the namespace alias is
absent. -/
def sortedAccountsByCurrencyBalance (namespaces : List NamespaceDoc)
    (collection : List Account) (matchCondition : Account → Bool)
    (sortAscending : Bool) (count : Nat) : Option (List Account) :=
  match networkCurrencyMosaic namespaces with
  | none => none
  | some mosaicId =>
    some (sortedAccountsByMosaicBalance collection mosaicId matchCondition
      sortAscending count)

/-- NamespaceDb.accountsByCurrencyBalanceFrom: the match condition is
accountMatchCondition on the computed balance field with $lt. -/
def accountsByCurrencyBalanceFrom (namespaces : List NamespaceDoc)
    (collection : List Account) (balance height id numAccounts : Nat) :
    Option (List Account) :=
  match networkCurrencyMosaic namespaces with
  | none => none
  | some mosaicId =>
    some (sortedAccountsByMosaicBalance collection mosaicId
      (accountMatchCondition (addFieldMosaicBalance mosaicId) .lt balance height id)
      false numAccounts)

/- ======================================================================
Cursor transaction by type with filter retrieval (NamespaceDb).
====================================================================== -/

/-- Transfer entity type, catapult.model.EntityType.transfer. -/
def EntityType.transfer : Nat := 0x4154

/-- Computed meta.hasMosaics field of the mosaic subfilter: reduce or over
transaction.mosaics, true when some attached mosaic id is not one of the
well known network mosaics. -/
def hasMosaicsField (t : Transaction) : Bool :=
  t.mosaics.foldl
    (fun value thisId => value || !([CURRENCY_ID, HARVEST_ID].contains thisId))
    false

/-- Computed meta.multisigAccountCount field of the multisig subfilter: size
of the lookup join of meta.addresses against the multisig accountAddress
column. -/
def multisigAccountCount (multisigAddresses : List Nat) (t : Transaction) : Nat :=
  (t.addresses.filter (fun address => multisigAddresses.contains address)).length

/-- NamespaceDb.transactionsByTypeWithFilter: for the transfer type the
mosaic subfilter keeps rows whose hasMosaics field is true and the multisig
subfilter keeps rows joining to at least one multisig account; any other
subfilter throws unknown filter parameter and any other type throws unknown
type parameter. The thrown errors are modelled as the error branch. -/
def transactionsByTypeWithFilter (collection : List Transaction)
    (multisigAddresses : List Nat) (initialMatch : Transaction → Bool)
    (txType : Nat) (filter : String) (sortAscending : Bool) (count : Nat) :
    Except String (List Transaction) :=
  if txType == EntityType.transfer then
    if filter == "mosaic" then
      .ok (findSortLimitSort (fun t => initialMatch t && hasMosaicsField t)
        (keySortLe txKey sortAscending) (keySortLe txKey false) count collection)
    else if filter == "multisig" then
      .ok (findSortLimitSort
        (fun t => initialMatch t && 0 < multisigAccountCount multisigAddresses t)
        (keySortLe txKey sortAscending) (keySortLe txKey false) count collection)
    else .error "unknown filter parameter."
  else .error "unknown type parameter."

/- ======================================================================
Route handler layer (routes/routeUtils.js, routes/blockRoutes.js and the
namespace plugin routes). Path parameters arrive as strings; the limit
parameter is taken already parsed by the uint parser (a nonnegative decimal
integer), since claims about it quantify over numeric values.
====================================================================== -/

/-- Configured count range, services.config.countRange. -/
structure CountRange where
  min : Nat
  max : Nat
  preset : Nat
deriving DecidableEq, Repr

/-- routeUtils.parseRangeValue: the parsed value when it lies inside the
configured range, undefined otherwise. -/
def parseRangeValue (value : Nat) (range : CountRange) : Option Nat :=
  if value < range.min then none
  else if value > range.max then none
  else some value

/-- Truthiness test applied by the handlers to the parsed limit: the
JavaScript guard if not limit treats both undefined and the number 0 as
false. -/
def limitFalsy : Option Nat → Bool
  | none => true
  | some value => value == 0

/-- Character class of the hex recognizer, convert.isHexString. -/
def isHexChar (c : Char) : Bool :=
  c.isDigit || (decide ('a' ≤ c) && decide (c ≤ 'f')) ||
    (decide ('A' ≤ c) && decide (c ≤ 'F'))

/-- String form of the hex recognizer. -/
def isHexString (s : String) : Bool :=
  s.data.all isHexChar

/-- namedValidatorMap.earliest: the literal earliest or min. -/
def validateEarliest (s : String) : Bool :=
  s == "earliest" || s == "min"

/-- namedValidatorMap.latest: the literal latest or max. -/
def validateLatest (s : String) : Bool :=
  s == "latest" || s == "max"

/-- namedValidatorMap.hash256: the length is 64; the alphabet is not
inspected by the validator. -/
def validateHash256 (s : String) : Bool :=
  s.length == 64

/-- namedValidatorMap.integer: one or more decimal digits. -/
def validateInteger (s : String) : Bool :=
  0 < s.length && s.data.all Char.isDigit

/-- namedValidatorMap.objectId: the length is 24 and every character is
hex. -/
def validateObjectId (s : String) : Bool :=
  s.length == 24 && isHexString s

/-- namedValidatorMap.duration: the literal from or since. -/
def validateDuration (s : String) : Bool :=
  s == "from" || s == "since"

/-- namedParserMap.hash256 as invoked through parseValue: the length was
already checked by the validator, and convert.hexToUint8 throws on a non
hex character; parseValue performs no wrapping of that throw. -/
def parseHash256 (s : String) : Except Unit (List Char) :=
  if s.length == 64 then
    (if isHexString s then .ok s.data else .error ())
  else .error ()

/-- Outcome of one cursor route invocation: a 302 redirect carrying the
Location value, a 409 invalid argument error response, an exception that
escapes the handler unwrapped (neither a 409 response nor a dispatch), or a
dispatch of the named timeline method with the anchor and limit. -/
inductive RouteOutcome where
  | redirect (location : String)
  | invalidArgument
  | thrown
  | dispatch (method : String) (anchor : Option String) (limit : Nat)
deriving DecidableEq, Repr

/-- routeUtils.getBlockTimeline: sanitize the limit through the range check
and redirect when the guard sees a falsy value, then classify the anchor by
the first matching validator in order earliest, latest, hash256, integer,
parsing it with the matching parser, and dispatch duration + Min, Max, Hash
or Height; an anchor matching no validator produces the invalid argument
error. The parseValue throw on a 64 character non hex anchor is not caught
anywhere in the handler. -/
def getBlockTimeline (countRange : CountRange) (duration block : String)
    (limit : Nat) (redirectUrl : Nat → String) : RouteOutcome :=
  let limitValue := parseRangeValue limit countRange
  if limitFalsy limitValue then .redirect (redirectUrl countRange.preset)
  else if validateEarliest block then .dispatch (duration ++ "Min") none limit
  else if validateLatest block then .dispatch (duration ++ "Max") none limit
  else if validateHash256 block then
    match parseHash256 block with
    | .ok _ => .dispatch (duration ++ "Hash") (some block) limit
    | .error _ => .thrown
  else if validateInteger block then .dispatch (duration ++ "Height") (some block) limit
  else .invalidArgument

/-- Cursor route of routes/blockRoutes.js: parse the duration through the
duration parser (an invalid duration raises the invalid argument error),
then run getBlockTimeline with the redirect URL template of the route. -/
def blocksCursorRoute (countRange : CountRange) (duration block : String)
    (limit : Nat) : RouteOutcome :=
  if !validateDuration duration then .invalidArgument
  else
    getBlockTimeline countRange duration block limit
      (fun preset =>
        "/blocks/" ++ duration ++ "/" ++ block ++ "/limit/" ++ toString preset)

/-- namedParserMap.transferFilterType: mosaic or multisig, anything else
throws. -/
def transferFilterTypeParser (s : String) : Except Unit String :=
  if s == "mosaic" || s == "multisig" then .ok s else .error ()

/-- Lookup of a named parser whose name ends in FilterType: the parser map
contains transferFilterType and no other FilterType entry. -/
def namedFilterTypeParser (name : String) : Option (String → Except Unit String) :=
  if name == "transferFilterType" then some transferFilterTypeParser else none

/-- routeUtils.parseArgument for the filter segment with parser name type +
FilterType: when the named parser does not exist the lookup yields undefined
and invoking it throws, which the surrounding try catch converts into the
invalid argument error, exactly as a parser throw would be. -/
def parseFilterArgument (typeStr filterStr : String) : Except Unit String :=
  match namedFilterTypeParser (typeStr ++ "FilterType") with
  | none => .error ()
  | some parser => parser filterStr

/-- namedParserMap.transactionType via catapult.model.EntityType: the
recognized type names of the sdk collaborator; only the transfer binding
matters to the theorems below, the rest shows the shape of the map. -/
def parseTransactionType (s : String) : Option Nat :=
  if s == "transfer" then some EntityType.transfer
  else if s == "registerNamespace" then some 0x414E
  else if s == "aggregateComplete" then some 0x4141
  else if s == "aggregateBonded" then some 0x4241
  else none

/-- Cursor route transactions by type with filter of the namespace plugin
combined with routeUtils.getTransactionByTypeWithFilterTimeline: parse the
duration, the limit, the type (an unknown type name raises the invalid
argument error), then the filter with the parser named type + FilterType,
then redirect on a falsy ranged limit, then classify the anchor in order
earliest, latest, objectId, hash256 and dispatch; an anchor matching no
validator produces the invalid argument error. -/
def transactionsByTypeWithFilterRoute (countRange : CountRange)
    (duration transaction typeStr filterStr : String) (limit : Nat) :
    RouteOutcome :=
  if !validateDuration duration then .invalidArgument
  else
    match parseTransactionType typeStr with
    | none => .invalidArgument
    | some _ =>
      match parseFilterArgument typeStr filterStr with
      | .error _ => .invalidArgument
      | .ok _ =>
        let limitValue := parseRangeValue limit countRange
        if limitFalsy limitValue then
          .redirect ("/transactions/" ++ duration ++ "/" ++ transaction ++
            "/type/" ++ typeStr ++ "/filter/" ++ filterStr ++ "/limit/" ++
            toString countRange.preset)
        else if validateEarliest transaction then
          .dispatch (duration ++ "Min") none limit
        else if validateLatest transaction then
          .dispatch (duration ++ "Max") none limit
        else if validateObjectId transaction then
          .dispatch (duration ++ "Id") (some transaction) limit
        else if validateHash256 transaction then
          match parseHash256 transaction with
          | .ok _ => .dispatch (duration ++ "Hash") (some transaction) limit
          | .error _ => .thrown
        else .invalidArgument

/- ======================================================================
Concrete stores used to evaluate the code on explicit inputs.
====================================================================== -/

/-- Chain of 25 blocks with heights 1 to 25. -/
def blockStoreTo25 : List Block :=
  (List.range' 1 25).map fun h => ⟨h, h, h⟩

/-- Chain of 10 blocks with heights 1 to 10. -/
def blockStoreTo10 : List Block :=
  (List.range' 1 10).map fun h => ⟨h, h, h⟩

/-- Account with empty activity buckets (harvested fees 0), id 1. -/
def feeTieAccountA : Account :=
  ⟨[], 5, [], [], 11, none, 1⟩

/-- Account with empty activity buckets (harvested fees 0), id 2. -/
def feeTieAccountB : Account :=
  ⟨[], 7, [], [], 12, none, 2⟩

/- ======================================================================
Shared lemmas about the cursor pipeline.
====================================================================== -/

/-- Transitivity of the descending key comparator. -/
theorem keySortLe_false_trans (key : ρ → K) [LinearOrder K] :
    ∀ a b c, keySortLe key false a b → keySortLe key false b c →
      keySortLe key false a c := by
  intro a b c h1 h2
  simp only [keySortLe] at *
  exact le_trans h2 h1

/-- Totality of the descending key comparator. -/
theorem keySortLe_false_total (key : ρ → K) [LinearOrder K] :
    ∀ a b, keySortLe key false a b ∨ keySortLe key false b a := by
  intro a b
  simp only [keySortLe]
  exact le_total (key b) (key a)

/-- The pipeline returns at most count rows. -/
theorem findSortLimitSort_length_le (condition : ρ → Bool)
    (initialSort finalSort : ρ → ρ → Prop) [DecidableRel initialSort]
    [DecidableRel finalSort] (count : Nat) (collection : List ρ) :
    (findSortLimitSort condition initialSort finalSort count collection).length ≤
      count := by
  rw [findSortLimitSort, List.length_insertionSort]
  exact List.length_take_le count _

/-- Every row the pipeline returns satisfies the match condition and comes
from the collection. -/
theorem findSortLimitSort_subset (condition : ρ → Bool)
    (initialSort finalSort : ρ → ρ → Prop) [DecidableRel initialSort]
    [DecidableRel finalSort] (count : Nat) (collection : List ρ) :
    ∀ x ∈ findSortLimitSort condition initialSort finalSort count collection,
      x ∈ collection.filter condition := by
  intro x hx
  rw [findSortLimitSort] at hx
  have hx1 := (List.perm_insertionSort finalSort _).mem_iff.mp hx
  exact (List.perm_insertionSort initialSort _).mem_iff.mp
    ((List.take_sublist _ _).subset hx1)

/-- When the matching rows already fit in the limit, membership in the
pipeline output coincides with membership in the filtered collection. -/
theorem findSortLimitSort_mem_iff (condition : ρ → Bool)
    (initialSort finalSort : ρ → ρ → Prop) [DecidableRel initialSort]
    [DecidableRel finalSort] (count : Nat) (collection : List ρ)
    (hlen : (collection.filter condition).length ≤ count) (x : ρ) :
    x ∈ findSortLimitSort condition initialSort finalSort count collection ↔
      x ∈ collection.filter condition := by
  rw [findSortLimitSort,
    List.take_of_length_le (by rw [List.length_insertionSort]; exact hlen)]
  exact ((List.perm_insertionSort finalSort _).trans
    (List.perm_insertionSort initialSort _)).mem_iff

/-- When the collection carries pairwise distinct keys, the pipeline output
is strictly descending in the key. -/
theorem findSortLimitSort_pairwise_lt (key : ρ → K) [LinearOrder K]
    (condition : ρ → Bool) (initialSort : ρ → ρ → Prop)
    [DecidableRel initialSort] (count : Nat) (collection : List ρ)
    (hnd : collection.Pairwise fun a b => key a ≠ key b) :
    (findSortLimitSort condition initialSort (keySortLe key false) count
      collection).Pairwise (fun a b => key b < key a) := by
  haveI : IsTotal ρ (keySortLe key false) := ⟨keySortLe_false_total key⟩
  haveI : IsTrans ρ (keySortLe key false) := ⟨keySortLe_false_trans key⟩
  have hsymm : ∀ {x y : ρ}, key x ≠ key y → key y ≠ key x := fun h => Ne.symm h
  have h1 : (collection.filter condition).Pairwise (fun a b => key a ≠ key b) :=
    hnd.filter condition
  have h2 : (List.insertionSort initialSort
      (collection.filter condition)).Pairwise (fun a b => key a ≠ key b) :=
    ((List.perm_insertionSort initialSort _).pairwise_iff hsymm).mpr h1
  have h3 := List.Pairwise.sublist (List.take_sublist count _) h2
  have h4 : (findSortLimitSort condition initialSort (keySortLe key false) count
      collection).Pairwise (fun a b => key a ≠ key b) :=
    ((List.perm_insertionSort _ _).pairwise_iff hsymm).mpr h3
  have h5 : (findSortLimitSort condition initialSort (keySortLe key false) count
      collection).Pairwise (keySortLe key false) :=
    List.sorted_insertionSort (keySortLe key false) _
  refine (h5.and h4).imp ?_
  intro a b h
  have hle : key b ≤ key a := h.1
  exact lt_of_le_of_ne hle (Ne.symm h.2)

/-- The block pipeline returns at most count rows. -/
theorem sortedBlocks_length_le (collection : List Block)
    (condition : Block → Bool) (count : Nat) :
    (sortedBlocks collection condition count).length ≤ count := by
  rw [sortedBlocks]
  exact List.length_take_le count _

/-- Every block returned satisfies the condition and comes from the
collection. -/
theorem sortedBlocks_subset (collection : List Block)
    (condition : Block → Bool) (count : Nat) :
    ∀ x ∈ sortedBlocks collection condition count,
      x ∈ collection.filter condition := by
  intro x hx
  rw [sortedBlocks] at hx
  exact (List.perm_insertionSort _ _).mem_iff.mp
    ((List.take_sublist _ _).subset hx)

/-- When the matching blocks already fit in the limit, membership in the
block pipeline coincides with membership in the filtered collection. -/
theorem sortedBlocks_mem_iff (collection : List Block)
    (condition : Block → Bool) (count : Nat)
    (hlen : (collection.filter condition).length ≤ count) (x : Block) :
    x ∈ sortedBlocks collection condition count ↔
      x ∈ collection.filter condition := by
  rw [sortedBlocks,
    List.take_of_length_le (by rw [List.length_insertionSort]; exact hlen)]
  exact (List.perm_insertionSort _ _).mem_iff

/-- When the collection carries pairwise distinct heights, the block
pipeline output is strictly descending in the height. -/
theorem sortedBlocks_pairwise_lt (collection : List Block)
    (condition : Block → Bool) (count : Nat)
    (hnd : collection.Pairwise fun a b => a.height ≠ b.height) :
    (sortedBlocks collection condition count).Pairwise
      (fun a b => b.height < a.height) := by
  haveI : IsTotal Block (keySortLe Block.height false) :=
    ⟨keySortLe_false_total Block.height⟩
  haveI : IsTrans Block (keySortLe Block.height false) :=
    ⟨keySortLe_false_trans Block.height⟩
  have hsymm : ∀ {x y : Block}, x.height ≠ y.height → y.height ≠ x.height :=
    fun h => Ne.symm h
  have h1 := hnd.filter condition
  have h2 : (List.insertionSort (keySortLe Block.height false)
      (collection.filter condition)).Pairwise
      (fun a b => a.height ≠ b.height) :=
    ((List.perm_insertionSort _ _).pairwise_iff hsymm).mpr h1
  have h5 : (List.insertionSort (keySortLe Block.height false)
      (collection.filter condition)).Pairwise (keySortLe Block.height false) :=
    List.sorted_insertionSort _ _
  rw [sortedBlocks]
  refine List.Pairwise.sublist (List.take_sublist count _) ?_
  exact (h5.and h2).imp fun h => lt_of_le_of_ne h.1 (Ne.symm h.2)

/-- A duplicate free list of naturals inside a half open interval is no
longer than the interval. -/
theorem nodup_length_le_of_mem_Ico (l : List Nat) (s e : Nat) (hnd : l.Nodup)
    (hmem : ∀ x ∈ l, s ≤ x ∧ x < e) : l.length ≤ e - s := by
  have hsub : l.toFinset ⊆ Finset.Ico s e := by
    intro x hx
    rw [List.mem_toFinset] at hx
    exact Finset.mem_Ico.mpr (hmem x hx)
  calc l.length = l.toFinset.card := (List.toFinset_card_of_nodup hnd).symm
    _ ≤ (Finset.Ico s e).card := Finset.card_le_card hsub
    _ = e - s := Nat.card_Ico s e

/- ======================================================================
Claim C3.
====================================================================== -/

/-- C3: for every family (every absolute parameter block) and every
argument list, the fromMin entry (duration from with the minimum sentinel)
and the sinceMax entry (duration since with the maximum sentinel) generated
by Timeline.generateAbsoluteParameters both resolve to the empty sequence
and issue no store query. -/
theorem c3_sentinel_entries_empty {ρ : Type} (info : AbsoluteParametersInfo)
    (db : TimelineDb ρ) (collectionName : String) (args : List Int) :
    Timeline.exec db (Timeline.generateAbsoluteParameters info).fromMin
        collectionName args = (some [], 0) ∧
    Timeline.exec db (Timeline.generateAbsoluteParameters info).sinceMax
        collectionName args = (some [], 0) :=
  ⟨rfl, rfl⟩

/- ======================================================================
Claim C4.
====================================================================== -/

/-- C4 counterexample: an identifier kind entry invoked with final count
argument 0 on a store whose id lookup misses does not resolve to the empty
sequence with zero store queries; the id lookup query is issued and the
result is undefined. -/
theorem c4_counterexample :
    ¬ ((Timeline.exec (⟨fun _ _ _ => [], fun _ _ _ => none⟩ : TimelineDb Nat)
        (.identifier "rawBlockByHash" "blocksv2From" fun _ => [])
        "blocks" [5, 0]).fst = some [] ∧
      (Timeline.exec (⟨fun _ _ _ => [], fun _ _ _ => none⟩ : TimelineDb Nat)
        (.identifier "rawBlockByHash" "blocksv2From" fun _ => [])
        "blocks" [5, 0]).snd = 0) := by
  decide

/-- C4 amended: with final count argument 0, empty and absolute entries and
record entries holding a record resolve to the empty sequence with no store
query; an identifier entry still issues exactly its one id lookup query and
resolves to the empty sequence when the lookup hits, to undefined when it
misses. -/
theorem c4_amended_count_zero :
    (∀ {ρ : Type} (db : TimelineDb ρ) (collectionName : String)
        (args : List Int),
      Timeline.exec db .empty collectionName args = (some [], 0)) ∧
    (∀ {ρ : Type} (db : TimelineDb ρ) (methodName : String)
        (generateArgs : List Int) (collectionName : String) (args : List Int),
      args.getLast? = some 0 →
      Timeline.exec db (.absolute methodName generateArgs) collectionName args =
        (some [], 0)) ∧
    (∀ {ρ : Type} (db : TimelineDb ρ) (methodName : String)
        (generateArgs : ρ → List Int) (r : ρ) (collectionName : String)
        (args : List Int),
      args.getLast? = some 0 →
      Timeline.exec db (.record methodName generateArgs (some r))
        collectionName args = (some [], 0)) ∧
    (∀ {ρ : Type} (db : TimelineDb ρ) (idMethodName methodName : String)
        (generateArgs : ρ → List Int) (collectionName : String) (id : Int)
        (rest : List Int),
      rest.getLast? = some 0 →
      Timeline.exec db (.identifier idMethodName methodName generateArgs)
        collectionName (id :: rest) =
        ((db.lookup idMethodName collectionName id).map fun _ => [], 1)) := by
  refine ⟨fun _ _ _ => rfl, ?_, ?_, ?_⟩
  · intro ρ db methodName generateArgs collectionName args h
    simp [Timeline.exec, h]
  · intro ρ db methodName generateArgs r collectionName args h
    simp [Timeline.exec, Timeline.recordRun, h]
  · intro ρ db idMethodName methodName generateArgs collectionName id rest h
    cases hl : db.lookup idMethodName collectionName id <;>
      simp [Timeline.exec, Timeline.recordRun, h, hl]

/-- C4 amended witness: concrete evaluations of the amended statement, one
for each entry kind, including an identifier entry over a store whose
lookup hits. -/
theorem c4_amended_count_zero_witness :
    Timeline.exec (⟨fun _ _ _ => [], fun _ _ _ => some 7⟩ : TimelineDb Nat)
        .empty "blocks" [0] = (some [], 0) ∧
    Timeline.exec (⟨fun _ _ _ => [], fun _ _ _ => some 7⟩ : TimelineDb Nat)
        (.absolute "blocksv2From" [9]) "blocks" [0] = (some [], 0) ∧
    Timeline.exec (⟨fun _ _ _ => [], fun _ _ _ => some 7⟩ : TimelineDb Nat)
        (.record "blocksv2From" (fun _ => []) (some 7)) "blocks" [0] =
        (some [], 0) ∧
    Timeline.exec (⟨fun _ _ _ => [], fun _ _ _ => some 7⟩ : TimelineDb Nat)
        (.identifier "rawBlockByHeight" "blocksv2Since" fun _ => [])
        "blocks" [3, 0] = (some [], 1) := by
  refine ⟨?_, ?_, ?_, ?_⟩
  · exact c4_amended_count_zero.1 _ _ _
  · exact c4_amended_count_zero.2.1 _ _ _ _ _ (by decide)
  · exact c4_amended_count_zero.2.2.1 _ _ _ _ _ _ (by decide)
  · have h := c4_amended_count_zero.2.2.2
      (⟨fun _ _ _ => [], fun _ _ _ => some 7⟩ : TimelineDb Nat)
      "rawBlockByHeight" "blocksv2Since" (fun _ => []) "blocks" 3 [0]
      (by decide)
    simpa using h

/- ======================================================================
Claim C5.
====================================================================== -/

/-- C5: when an identifier kind entry looks up an id that is absent from
the store the operation resolves to undefined after the single lookup query
and queryAndSendTimeline sends the not found error (404); when the currency
namespace alias of the balance family is absent the from query resolves to
undefined and queryAndSendTimeline sends the not found error; an undefined
result is never sent as a 200 page, empty or otherwise. -/
theorem c5_lookup_miss_notFound :
    (∀ {ρ : Type} (db : TimelineDb ρ) (idMethodName methodName : String)
        (generateArgs : ρ → List Int) (collectionName : String) (id : Int)
        (rest : List Int),
      db.lookup idMethodName collectionName id = none →
      Timeline.exec db (.identifier idMethodName methodName generateArgs)
          collectionName (id :: rest) = (none, 1) ∧
      queryAndSendTimeline
        (Timeline.exec db (.identifier idMethodName methodName generateArgs)
          collectionName (id :: rest)).fst = .notFound) ∧
    (∀ (namespaces : List NamespaceDoc) (collection : List Account)
        (balance height id numAccounts : Nat),
      networkCurrencyMosaic namespaces = none →
      accountsByCurrencyBalanceFrom namespaces collection balance height id
          numAccounts = none ∧
      queryAndSendTimeline
        (accountsByCurrencyBalanceFrom namespaces collection balance height id
          numAccounts) = .notFound) ∧
    (∀ (ρ : Type) (payload : List ρ),
      queryAndSendTimeline (none : Option (List ρ)) ≠ .okPayload payload) := by
  refine ⟨?_, ?_, ?_⟩
  · intro ρ db idMethodName methodName generateArgs collectionName id rest h
    constructor
    · simp [Timeline.exec, Timeline.recordRun, h]
    · simp [Timeline.exec, Timeline.recordRun, h, queryAndSendTimeline]
  · intro namespaces collection balance height id numAccounts h
    constructor
    · simp [accountsByCurrencyBalanceFrom, h]
    · simp [accountsByCurrencyBalanceFrom, h, queryAndSendTimeline]
  · intro ρ payload
    simp [queryAndSendTimeline]

/-- C5 witness: a store with no matching document for the looked up hash
yields the not found response, and an empty namespaces collection (no
currency alias) makes the balance from query yield the not found
response. -/
theorem c5_lookup_miss_notFound_witness :
    queryAndSendTimeline
      (Timeline.exec (⟨fun _ _ _ => [], fun _ _ _ => none⟩ : TimelineDb Nat)
        (.identifier "rawTransactionByHash" "transactionsFrom" fun _ => [])
        "transactions" [99, 25]).fst = .notFound ∧
    queryAndSendTimeline
      (accountsByCurrencyBalanceFrom [] [feeTieAccountA] 0 0 0 25) =
      .notFound := by
  constructor
  · exact (c5_lookup_miss_notFound.1 _ _ _ _ _ _ _ (by decide)).2
  · exact (c5_lookup_miss_notFound.2.1 _ _ _ _ _ _ (by decide)).2

/- ======================================================================
Claim C1.
====================================================================== -/

/-- C1: for every family pipeline (transactions, accounts by importance,
namespaces), every match condition, both scan directions and every limit,
the returned page has length at most the limit, and whenever the store
carries pairwise distinct complete sort key tuples the page is strictly
descending in the composite key, so no two returned entries share the
complete key tuple. -/
theorem c1_pages_bounded_and_strictly_descending :
    (∀ (collection : List Transaction) (condition : Transaction → Bool)
        (sortAscending : Bool) (count : Nat),
      (sortedTransactions collection condition sortAscending count).length ≤
        count ∧
      ((collection.Pairwise fun a b => txKey a ≠ txKey b) →
        (sortedTransactions collection condition sortAscending count).Pairwise
          fun a b => txKey b < txKey a)) ∧
    (∀ (collection : List Account) (matchCondition : Account → Bool)
        (sortAscending : Bool) (count : Nat),
      (sortedAccountsByImportance collection matchCondition sortAscending
        count).length ≤ count ∧
      ((collection.Pairwise fun a b => importanceKey a ≠ importanceKey b) →
        (sortedAccountsByImportance collection matchCondition sortAscending
          count).Pairwise fun a b => importanceKey b < importanceKey a)) ∧
    (∀ (collection : List NamespaceDoc) (condition : NamespaceDoc → Bool)
        (sortAscending : Bool) (count : Nat),
      (sortedNamespaces collection condition sortAscending count).length ≤
        count ∧
      ((collection.Pairwise fun a b => nsKey a ≠ nsKey b) →
        (sortedNamespaces collection condition sortAscending count).Pairwise
          fun a b => nsKey b < nsKey a)) := by
  refine ⟨fun collection condition sortAscending count => ⟨?_, fun hnd => ?_⟩,
    fun collection matchCondition sortAscending count => ⟨?_, fun hnd => ?_⟩,
    fun collection condition sortAscending count => ⟨?_, fun hnd => ?_⟩⟩
  · exact findSortLimitSort_length_le _ _ _ _ _
  · exact findSortLimitSort_pairwise_lt txKey _ _ _ _ hnd
  · exact findSortLimitSort_length_le _ _ _ _ _
  · exact findSortLimitSort_pairwise_lt importanceKey _ _ _ _ hnd
  · exact findSortLimitSort_length_le _ _ _ _ _
  · exact findSortLimitSort_pairwise_lt nsKey _ _ _ _ hnd

/-- C1 witness: concrete two row stores with distinct key tuples for each
of the three families, evaluated at limit 25. -/
theorem c1_pages_bounded_and_strictly_descending_witness :
    ((sortedTransactions
        [⟨2, 0, 0x4154, none, [], [], 1, 101⟩, ⟨1, 3, 0x4154, none, [], [], 2, 102⟩]
        (fun _ => true) false 25).length ≤ 25 ∧
      (sortedTransactions
        [⟨2, 0, 0x4154, none, [], [], 1, 101⟩, ⟨1, 3, 0x4154, none, [], [], 2, 102⟩]
        (fun _ => true) false 25).Pairwise fun a b => txKey b < txKey a) ∧
    ((sortedAccountsByImportance [feeTieAccountA, feeTieAccountB]
        (fun _ => true) true 25).length ≤ 25 ∧
      (sortedAccountsByImportance [feeTieAccountA, feeTieAccountB]
        (fun _ => true) true 25).Pairwise
        fun a b => importanceKey b < importanceKey a) ∧
    ((sortedNamespaces [⟨1, true, 5, 0, 0, 1, 9, 1⟩, ⟨2, true, 6, 0, 0, 1, 9, 2⟩]
        (fun _ => true) false 25).length ≤ 25 ∧
      (sortedNamespaces [⟨1, true, 5, 0, 0, 1, 9, 1⟩, ⟨2, true, 6, 0, 0, 1, 9, 2⟩]
        (fun _ => true) false 25).Pairwise fun a b => nsKey b < nsKey a) := by
  refine ⟨⟨?_, ?_⟩, ⟨?_, ?_⟩, ⟨?_, ?_⟩⟩
  · exact (c1_pages_bounded_and_strictly_descending.1 _ _ _ _).1
  · exact (c1_pages_bounded_and_strictly_descending.1 _ _ _ _).2 (by decide)
  · exact (c1_pages_bounded_and_strictly_descending.2.1 _ _ _ _).1
  · exact (c1_pages_bounded_and_strictly_descending.2.1 _ _ _ _).2 (by decide)
  · exact (c1_pages_bounded_and_strictly_descending.2.2 _ _ _ _).1
  · exact (c1_pages_bounded_and_strictly_descending.2.2 _ _ _ _).2 (by decide)

/- ======================================================================
Claim C2.
====================================================================== -/

/-- C2: evaluation of the account range predicates at the failing input.
The two accounts tie on harvested fees (both 0). The family returns account
A (it appears on the fromMax page), account A differs from account B, yet
the from page anchored at the extracted arguments of account B (fees 0,
publicKeyHeight 7, id 2) and the since page anchored there both miss
account A, because the tie breaker clauses of accountMatchCondition compare
the absent meta.publicKeyHeight path. The claimed partition of all records
other than the anchor record therefore fails on the account families. -/
theorem c2_account_pages_miss_tied_record :
    feeTieAccountA ≠ feeTieAccountB ∧
    addFieldHarvestedFees feeTieAccountA = addFieldHarvestedFees feeTieAccountB ∧
    feeTieAccountA ∈ accountsByHarvestedFeesFrom [feeTieAccountA, feeTieAccountB]
      0x7FFFFFFFFFFFFFFF 0x7FFFFFFFFFFFFFFF 0xFFFFFFFFFFFFFFFFFFFFFFFF 25 ∧
    feeTieAccountA ∉ accountsByHarvestedFeesFrom [feeTieAccountA, feeTieAccountB]
      0 7 2 25 ∧
    feeTieAccountA ∉ accountsByHarvestedFeesSince [feeTieAccountA, feeTieAccountB]
      0 7 2 25 := by
  decide

/-- Heights of a filtered block list are duplicate free when the collection
has pairwise distinct heights, and if every matching block lies in a window
no wider than the count then the filtered list fits in the count. -/
theorem filter_window_length_le (collection : List Block)
    (condition : Block → Bool) (s e count : Nat)
    (hnd : collection.Pairwise fun a b => a.height ≠ b.height)
    (himp : ∀ b : Block, condition b = true → s ≤ b.height ∧ b.height < e)
    (hwin : e - s ≤ count) :
    (collection.filter condition).length ≤ count := by
  have hnd2 : (collection.filter condition).Pairwise
      (fun a b => a.height ≠ b.height) := hnd.filter condition
  have hmapnd : ((collection.filter condition).map Block.height).Nodup :=
    List.pairwise_map.mpr hnd2
  have hmem : ∀ x ∈ (collection.filter condition).map Block.height,
      s ≤ x ∧ x < e := by
    intro x hx
    rw [List.mem_map] at hx
    obtain ⟨b, hb, rfl⟩ := hx
    exact himp b (List.mem_filter.mp hb).2
  have hlen := nodup_length_le_of_mem_Ico _ s e hmapnd hmem
  rw [List.length_map] at hlen
  omega

/- ======================================================================
Claim C6.
====================================================================== -/

/-- C6 counterexample: on a chain of height 10, the from query anchored at
height 100 with count 5 returns blocks (heights 10 down to 6) that do not
lie in the window claimed by the specification, whose lower bound max of 1
and target minus count equals 95; the code derives the lower bound from the
clamped end height instead. -/
theorem c6_counterexample :
    ¬ (∀ b ∈ blocksv2From blockStoreTo10 10 100 5,
        max 1 (100 - 5) ≤ b.height ∧ b.height < min 100 (10 + 1)) := by
  decide

/-- C6 amended: with e the clamped end min of target and chain height plus
one, the from query returns exactly the stored blocks with height in the
window from max of 1 and e minus count up to e (complete when heights are
pairwise distinct), sorted strictly descending; the since query returns
blocks in the window above min of target and chain height plus one up to
that bound plus count; and a since query anchored above the chain height
returns the empty sequence. -/
theorem c6_amended_block_windows :
    (∀ (collection : List Block) (chainHeight target count : Nat) (b : Block),
      b ∈ blocksv2From collection chainHeight target count →
      max 1 (min target (chainHeight + 1) - count) ≤ b.height ∧
        b.height < min target (chainHeight + 1)) ∧
    (∀ (collection : List Block) (chainHeight target count : Nat),
      (collection.Pairwise fun a b => a.height ≠ b.height) →
      (blocksv2From collection chainHeight target count).Pairwise
        (fun a b => b.height < a.height) ∧
      (0 < count → ∀ b ∈ collection,
        max 1 (min target (chainHeight + 1) - count) ≤ b.height →
        b.height < min target (chainHeight + 1) →
        b ∈ blocksv2From collection chainHeight target count)) ∧
    (∀ (collection : List Block) (chainHeight target count : Nat) (b : Block),
      b ∈ blocksv2Since collection chainHeight target count →
      min target (chainHeight + 1) < b.height ∧
        b.height ≤ min target (chainHeight + 1) + count) ∧
    (∀ (collection : List Block) (chainHeight target count : Nat),
      (∀ b ∈ collection, b.height ≤ chainHeight) → chainHeight < target →
      blocksv2Since collection chainHeight target count = []) := by
  refine ⟨?_, ?_, ?_, ?_⟩
  · intro collection chainHeight target count b hb
    rw [blocksv2From] at hb
    by_cases hc : count = 0
    · rw [if_pos hc] at hb
      simp at hb
    · rw [if_neg hc] at hb
      have h2 := (List.mem_filter.mp (sortedBlocks_subset _ _ _ b hb)).2
      simp only [calculateFromHeight, Bool.and_eq_true, decide_eq_true_iff] at h2
      split_ifs at h2 <;> omega
  · intro collection chainHeight target count hnd
    constructor
    · rw [blocksv2From]
      by_cases hc : count = 0
      · rw [if_pos hc]
        exact List.Pairwise.nil
      · rw [if_neg hc]
        exact sortedBlocks_pairwise_lt _ _ _ hnd
    · intro hpos b hmem hlow hhigh
      rw [blocksv2From, if_neg (by omega)]
      have hcond : (fun x : Block =>
          decide ((calculateFromHeight target chainHeight count).fst ≤ x.height) &&
          decide (x.height < (calculateFromHeight target chainHeight count).snd)) b
            = true := by
        simp only [calculateFromHeight, Bool.and_eq_true, decide_eq_true_iff]
        split_ifs <;> omega
      have hwin : (collection.filter fun x : Block =>
          decide ((calculateFromHeight target chainHeight count).fst ≤ x.height) &&
          decide (x.height < (calculateFromHeight target chainHeight count).snd)).length
            ≤ count := by
        refine filter_window_length_le collection _
          (calculateFromHeight target chainHeight count).fst
          (calculateFromHeight target chainHeight count).snd count hnd ?_ ?_
        · intro x hx
          simp only [Bool.and_eq_true, decide_eq_true_iff] at hx
          exact hx
        · simp only [calculateFromHeight]
          split_ifs <;> omega
      rw [sortedBlocks_mem_iff _ _ _ hwin]
      exact List.mem_filter.mpr ⟨hmem, hcond⟩
  · intro collection chainHeight target count b hb
    rw [blocksv2Since] at hb
    by_cases hc : count = 0
    · rw [if_pos hc] at hb
      simp at hb
    · rw [if_neg hc] at hb
      have h2 := (List.mem_filter.mp (sortedBlocks_subset _ _ _ b hb)).2
      simp only [calculateSinceHeight, Bool.and_eq_true, decide_eq_true_iff] at h2
      split_ifs at h2 <;> omega
  · intro collection chainHeight target count hle htip
    rw [blocksv2Since]
    by_cases hc : count = 0
    · rw [if_pos hc]
    · rw [if_neg hc]
      have hfil : collection.filter (fun b : Block =>
          decide ((calculateSinceHeight target chainHeight count).fst < b.height) &&
          decide (b.height ≤ (calculateSinceHeight target chainHeight count).snd))
            = [] := by
        rw [List.filter_eq_nil_iff]
        intro b hb
        have := hle b hb
        simp only [calculateSinceHeight, Bool.and_eq_true, decide_eq_true_iff]
        split_ifs <;> omega
      rw [sortedBlocks, hfil]
      simp

/-- C6 amended witness: on the chain of height 10, the from query anchored
at 100 with count 5 is strictly descending and contains the block at height
6 (the window lower bound is 6, not 95), and a since query anchored at 11,
above the tip, is empty. -/
theorem c6_amended_block_windows_witness :
    (blocksv2From blockStoreTo10 10 100 5).Pairwise
      (fun a b => b.height < a.height) ∧
    (⟨6, 6, 6⟩ : Block) ∈ blocksv2From blockStoreTo10 10 100 5 ∧
    blocksv2Since blockStoreTo10 10 11 5 = [] := by
  refine ⟨?_, ?_, ?_⟩
  · exact (c6_amended_block_windows.2.1 blockStoreTo10 10 100 5 (by decide)).1
  · exact (c6_amended_block_windows.2.1 blockStoreTo10 10 100 5 (by decide)).2
      (by decide) ⟨6, 6, 6⟩ (by decide) (by decide) (by decide)
  · exact c6_amended_block_windows.2.2.2 blockStoreTo10 10 11 5
      (by decide) (by decide)

/- ======================================================================
Claim C7.
====================================================================== -/

/-- C7 counterexample: on a chain holding exactly heights 1 to 25 (chain
height 25), the since min query with limit 25 returns a block of height
below 2, namely the genesis block at height 1, because the min sentinel
anchors at height 0 and since is non inclusive of 0, not of 1. -/
theorem c7_counterexample :
    ¬ (∀ b ∈ blocksSinceMin blockStoreTo25 25 25, 2 ≤ b.height) := by
  decide

/-- C7 amended: on a store whose heights are pairwise distinct, cover every
height from 1 to the chain height and lie within it, with chain height at
least 25, the since min query with limit 25 responds 200 with exactly 25
blocks, strictly descending in height, all heights between 1 and 25, and
the smallest returned height is exactly 1 (the genesis block is included
since the min sentinel anchors at height 0). -/
theorem c7_amended_since_min (collection : List Block) (chainHeight : Nat)
    (hnd : collection.Pairwise fun a b => a.height ≠ b.height)
    (hcov : ∀ h ∈ List.range' 1 chainHeight, ∃ b ∈ collection, b.height = h)
    (h25 : 25 ≤ chainHeight) :
    (blocksSinceMin collection chainHeight 25).length = 25 ∧
    (blocksSinceMin collection chainHeight 25).Pairwise
      (fun a b => b.height < a.height) ∧
    (∀ b ∈ blocksSinceMin collection chainHeight 25,
      1 ≤ b.height ∧ b.height ≤ 25) ∧
    (∃ b ∈ blocksSinceMin collection chainHeight 25, b.height = 1) ∧
    queryAndSendTimeline (some (blocksSinceMin collection chainHeight 25)) =
      .okPayload (blocksSinceMin collection chainHeight 25) := by
  have hcalc : calculateSinceHeight 0 chainHeight 25 = (0, 25) := by
    simp only [calculateSinceHeight]
    rw [if_neg (by omega : ¬ ((0 : Nat) > chainHeight))]
  have hrw : blocksSinceMin collection chainHeight 25 =
      sortedBlocks collection
        (fun b => decide (0 < b.height) && decide (b.height ≤ 25)) 25 := by
    simp only [blocksSinceMin, blocksv2Since, hcalc]
    rw [if_neg (by omega : ¬ (25 = 0))]
  have hlen_le : (collection.filter
      (fun b => decide (0 < b.height) && decide (b.height ≤ 25))).length ≤ 25 := by
    refine filter_window_length_le collection _ 1 26 25 hnd ?_ (by omega)
    intro b hb
    simp only [Bool.and_eq_true, decide_eq_true_iff] at hb
    omega
  have hlen_ge : 25 ≤ (collection.filter
      (fun b => decide (0 < b.height) && decide (b.height ≤ 25))).length := by
    have hsub : List.range' 1 25 ⊆ (collection.filter
        (fun b => decide (0 < b.height) && decide (b.height ≤ 25))).map
          Block.height := by
      intro h hmem
      rw [List.mem_range'] at hmem
      obtain ⟨i, hi, rfl⟩ := hmem
      obtain ⟨b, hbmem, hbh⟩ := hcov (1 + 1 * i) (by
        rw [List.mem_range']
        exact ⟨i, by omega, rfl⟩)
      rw [List.mem_map]
      refine ⟨b, List.mem_filter.mpr ⟨hbmem, ?_⟩, hbh⟩
      simp only [Bool.and_eq_true, decide_eq_true_iff]
      omega
    have hndr : (List.range' 1 25).Nodup := List.nodup_range' 1 25 1 (by omega)
    have hfin : (List.range' 1 25).toFinset ⊆ ((collection.filter
        (fun b => decide (0 < b.height) && decide (b.height ≤ 25))).map
          Block.height).toFinset := by
      intro x hx
      rw [List.mem_toFinset] at hx
      rw [List.mem_toFinset]
      exact hsub hx
    have h1 : (List.range' 1 25).toFinset.card = 25 := by
      rw [List.toFinset_card_of_nodup hndr, List.length_range']
    calc (25 : Nat) = (List.range' 1 25).toFinset.card := h1.symm
      _ ≤ ((collection.filter
            (fun b => decide (0 < b.height) && decide (b.height ≤ 25))).map
              Block.height).toFinset.card := Finset.card_le_card hfin
      _ ≤ ((collection.filter
            (fun b => decide (0 < b.height) && decide (b.height ≤ 25))).map
              Block.height).length := List.toFinset_card_le _
      _ = (collection.filter
            (fun b => decide (0 < b.height) && decide (b.height ≤ 25))).length :=
          List.length_map _ _
  have hlen : (collection.filter
      (fun b => decide (0 < b.height) && decide (b.height ≤ 25))).length = 25 :=
    le_antisymm hlen_le hlen_ge
  refine ⟨?_, ?_, ?_, ?_, rfl⟩
  · rw [hrw, sortedBlocks, List.length_take, List.length_insertionSort, hlen]
    omega
  · rw [hrw]
    exact sortedBlocks_pairwise_lt _ _ _ hnd
  · intro b hb
    rw [hrw] at hb
    have h2 := (List.mem_filter.mp (sortedBlocks_subset _ _ _ b hb)).2
    simp only [Bool.and_eq_true, decide_eq_true_iff] at h2
    omega
  · obtain ⟨b, hbmem, hbh⟩ := hcov 1 (by
      rw [List.mem_range']
      exact ⟨0, by omega, by omega⟩)
    refine ⟨b, ?_, hbh⟩
    rw [hrw, sortedBlocks_mem_iff _ _ _ hlen_le]
    refine List.mem_filter.mpr ⟨hbmem, ?_⟩
    simp only [Bool.and_eq_true, decide_eq_true_iff]
    omega

/-- C7 amended witness: the concrete chain of heights 1 to 25. -/
theorem c7_amended_since_min_witness :
    (blocksSinceMin blockStoreTo25 25 25).length = 25 ∧
    (blocksSinceMin blockStoreTo25 25 25).Pairwise
      (fun a b => b.height < a.height) ∧
    (∃ b ∈ blocksSinceMin blockStoreTo25 25 25, b.height = 1) := by
  have h := c7_amended_since_min blockStoreTo25 25 (by decide) (by decide)
    (by decide)
  exact ⟨h.1, h.2.1, h.2.2.2.1⟩

/-- A limit outside the configured range parses to undefined, which the
truthiness guard treats as falsy. -/
theorem limitFalsy_of_outside (countRange : CountRange) (limit : Nat)
    (h : limit < countRange.min ∨ countRange.max < limit) :
    limitFalsy (parseRangeValue limit countRange) = true := by
  rw [parseRangeValue]
  by_cases h1 : limit < countRange.min
  · rw [if_pos h1]
    rfl
  · rw [if_neg h1, if_pos (by omega)]
    rfl

/-- A limit inside a range with positive lower bound parses to itself and
is not falsy. -/
theorem limitFalsy_of_inside_pos (countRange : CountRange) (limit : Nat)
    (h0 : 0 < countRange.min) (h1 : countRange.min ≤ limit)
    (h2 : limit ≤ countRange.max) :
    limitFalsy (parseRangeValue limit countRange) = false := by
  rw [parseRangeValue, if_neg (by omega), if_neg (by omega)]
  simp only [limitFalsy, beq_eq_false_iff_ne]
  omega

/-- No anchor satisfies both the earliest and the latest validator. -/
theorem validateEarliest_false_of_latest (block : String)
    (h : validateLatest block = true) : validateEarliest block = false := by
  rw [validateLatest, Bool.or_eq_true, beq_iff_eq, beq_iff_eq] at h
  rcases h with h | h <;> subst h <;> decide

/-- A type name other than transfer never produces the parser name
transferFilterType. -/
theorem filterTypeName_ne (typeStr : String) (h : typeStr ≠ "transfer") :
    ((typeStr ++ "FilterType") == "transferFilterType") = false := by
  rw [beq_eq_false_iff_ne]
  intro he
  apply h
  have hsplit : typeStr ++ "FilterType" = "transfer" ++ "FilterType" := by
    rw [he]
    decide
  have hdata := congrArg String.data hsplit
  rw [String.data_append, String.data_append] at hdata
  exact String.ext (List.append_cancel_right hdata)

/- ======================================================================
Claim C8.
====================================================================== -/

/-- C8 counterexample: with configured count range 0 to 100 and preset 25,
the limit value 0 lies inside the configured range (parseRangeValue keeps
it), yet the route responds with a redirect rather than dispatching,
because the truthiness guard conflates the number 0 with the undefined
out of range marker. -/
theorem c8_counterexample :
    parseRangeValue 0 ⟨0, 100, 25⟩ = some 0 ∧
    blocksCursorRoute ⟨0, 100, 25⟩ "from" "latest" 0 =
      .redirect "/blocks/from/latest/limit/25" := by
  constructor
  · decide
  · decide

/-- C8 amended: for every limit outside the configured range the route
responds with a 302 redirect whose location is the same URL with the limit
replaced by the preset; when the configured minimum is positive, every
limit inside the range is never redirected, and a valid sentinel anchor is
dispatched to the timeline (the code would also redirect a limit of 0 lying
inside a range configured with minimum 0). -/
theorem c8_amended_limit_canonicalization :
    (∀ (countRange : CountRange) (duration block : String) (limit : Nat),
      validateDuration duration = true →
      (limit < countRange.min ∨ countRange.max < limit) →
      blocksCursorRoute countRange duration block limit =
        .redirect ("/blocks/" ++ duration ++ "/" ++ block ++ "/limit/" ++
          toString countRange.preset)) ∧
    (∀ (countRange : CountRange) (duration block : String) (limit : Nat),
      0 < countRange.min → countRange.min ≤ limit → limit ≤ countRange.max →
      ∀ location, blocksCursorRoute countRange duration block limit ≠
        .redirect location) ∧
    (∀ (countRange : CountRange) (duration block : String) (limit : Nat),
      validateDuration duration = true →
      0 < countRange.min → countRange.min ≤ limit → limit ≤ countRange.max →
      validateLatest block = true →
      blocksCursorRoute countRange duration block limit =
        .dispatch (duration ++ "Max") none limit) := by
  refine ⟨?_, ?_, ?_⟩
  · intro countRange duration block limit hd hout
    rw [blocksCursorRoute, hd]
    rw [if_neg (by simp)]
    rw [getBlockTimeline]
    simp only [limitFalsy_of_outside countRange limit hout, if_pos]
  · intro countRange duration block limit h0 h1 h2 location
    rw [blocksCursorRoute]
    by_cases hd : validateDuration duration = true
    · rw [hd, if_neg (by simp)]
      rw [getBlockTimeline]
      simp only [limitFalsy_of_inside_pos countRange limit h0 h1 h2,
        Bool.false_eq_true, if_false]
      split_ifs <;> try simp
      split <;> simp
    · rw [if_pos (by simp [Bool.not_eq_true] at hd; simp [hd])]
      simp
  · intro countRange duration block limit hd h0 h1 h2 hlatest
    rw [blocksCursorRoute, hd, if_neg (by simp)]
    rw [getBlockTimeline]
    simp only [limitFalsy_of_inside_pos countRange limit h0 h1 h2,
      Bool.false_eq_true, if_false]
    rw [if_neg (by simp [validateEarliest_false_of_latest block hlatest]),
      if_pos hlatest]

/-- C8 amended witness: limit 0 outside the range 1 to 100 redirects to the
preset URL, and limit 25 inside the range dispatches fromMax. -/
theorem c8_amended_limit_canonicalization_witness :
    blocksCursorRoute ⟨1, 100, 25⟩ "from" "latest" 0 =
      .redirect "/blocks/from/latest/limit/25" ∧
    blocksCursorRoute ⟨1, 100, 25⟩ "from" "latest" 25 =
      .dispatch "fromMax" none 25 := by
  constructor
  · have h := c8_amended_limit_canonicalization.1 ⟨1, 100, 25⟩ "from" "latest" 0
      (by decide) (Or.inl (by decide))
    simpa using h
  · exact c8_amended_limit_canonicalization.2.2 ⟨1, 100, 25⟩ "from" "latest" 25
      (by decide) (by decide) (by decide) (by decide) (by decide)

/- ======================================================================
Claim C9.
====================================================================== -/

/-- C9 counterexample: a 64 character anchor with a non hex alphabet passes
the length only hash256 validator, so the route reaches the unwrapped
parseValue conversion whose throw escapes the handler; the outcome is not
the invalid argument (409) error, for either duration. -/
theorem c9_counterexample :
    blocksCursorRoute ⟨1, 100, 25⟩ "from"
      "GGGGGGGGGGGGGGGGGGGGGGGGGGGGGGGGGGGGGGGGGGGGGGGGGGGGGGGGGGGGGGGG" 25 =
      .thrown ∧
    blocksCursorRoute ⟨1, 100, 25⟩ "since"
      "GGGGGGGGGGGGGGGGGGGGGGGGGGGGGGGGGGGGGGGGGGGGGGGGGGGGGGGGGGGGGGGG" 25 =
      .thrown ∧
    RouteOutcome.thrown ≠ RouteOutcome.invalidArgument := by
  refine ⟨by decide, by decide, by decide⟩

/-- C9 amended: an anchor that matches none of the block anchor validators
(not an earliest or latest sentinel, not of hash length 64, not a decimal
integer; this covers unknown sentinels such as longest) receives the
invalid argument (409) error for every duration and every in range limit;
an anchor of length 64 with a wrong alphabet instead reaches the unwrapped
parser throw. -/
theorem c9_amended_unmatched_anchor_invalid (countRange : CountRange)
    (duration block : String) (limit : Nat)
    (hd : validateDuration duration = true)
    (h0 : 0 < countRange.min) (h1 : countRange.min ≤ limit)
    (h2 : limit ≤ countRange.max)
    (he : validateEarliest block = false) (hl : validateLatest block = false)
    (hh : block.length ≠ 64) (hi : validateInteger block = false) :
    blocksCursorRoute countRange duration block limit = .invalidArgument := by
  rw [blocksCursorRoute, hd, if_neg (by simp)]
  rw [getBlockTimeline]
  simp only [limitFalsy_of_inside_pos countRange limit h0 h1 h2,
    Bool.false_eq_true, if_false]
  rw [if_neg (by simp [he]), if_neg (by simp [hl]),
    if_neg (by simp [validateHash256]; exact hh), if_neg (by simp [hi])]

/-- C9 amended witness: the unknown sentinel longest receives the invalid
argument error on the blocks route for both durations. -/
theorem c9_amended_unmatched_anchor_invalid_witness :
    blocksCursorRoute ⟨1, 100, 25⟩ "from" "longest" 25 = .invalidArgument ∧
    blocksCursorRoute ⟨1, 100, 25⟩ "since" "longest" 25 = .invalidArgument := by
  constructor
  · exact c9_amended_unmatched_anchor_invalid ⟨1, 100, 25⟩ "from" "longest" 25
      (by decide) (by decide) (by decide) (by decide) (by decide) (by decide)
      (by decide) (by decide)
  · exact c9_amended_unmatched_anchor_invalid ⟨1, 100, 25⟩ "since" "longest" 25
      (by decide) (by decide) (by decide) (by decide) (by decide) (by decide)
      (by decide) (by decide)

/- ======================================================================
Claim C10.
====================================================================== -/

/-- With a type segment other than transfer the filtered transactions route
raises the invalid argument error: either the type name is unknown to the
transaction type parser, or the filter parser name type + FilterType does
not exist in the parser map so invoking it throws inside parseArgument. -/
theorem filterRoute_invalid_of_type_ne (countRange : CountRange)
    (duration transaction typeStr filterStr : String) (limit : Nat)
    (hne : typeStr ≠ "transfer") :
    transactionsByTypeWithFilterRoute countRange duration transaction typeStr
      filterStr limit = .invalidArgument := by
  rw [transactionsByTypeWithFilterRoute]
  by_cases hd : validateDuration duration = true
  · rw [hd, if_neg (by simp)]
    cases hty : parseTransactionType typeStr with
    | none => simp only
    | some ty =>
      have hf : parseFilterArgument typeStr filterStr = .error () := by
        rw [parseFilterArgument, namedFilterTypeParser,
          if_neg (by simp [filterTypeName_ne typeStr hne])]
      simp only [hf]
  · rw [if_pos (by simp [Bool.not_eq_true] at hd; simp [hd])]

/-- C10: for every request on the filtered transactions route whose type
segment is any string other than transfer, the route raises the invalid
argument error before any timeline method is invoked; whenever the route
does dispatch, the type segment is transfer and the filter segment is
mosaic or multisig, and transactionsByTypeWithFilter invoked with the
transfer type and such a filter never reaches its unknown type or unknown
filter exception branches. -/
theorem c10_nontransfer_filter_unreachable :
    (∀ (countRange : CountRange)
        (duration transaction typeStr filterStr : String) (limit : Nat),
      typeStr ≠ "transfer" →
      transactionsByTypeWithFilterRoute countRange duration transaction typeStr
        filterStr limit = .invalidArgument) ∧
    (∀ (countRange : CountRange)
        (duration transaction typeStr filterStr : String) (limit : Nat)
        (method : String) (anchor : Option String) (dispatchLimit : Nat),
      transactionsByTypeWithFilterRoute countRange duration transaction typeStr
        filterStr limit = .dispatch method anchor dispatchLimit →
      typeStr = "transfer" ∧ (filterStr = "mosaic" ∨ filterStr = "multisig")) ∧
    (∀ (collection : List Transaction) (multisigAddresses : List Nat)
        (initialMatch : Transaction → Bool) (filter : String)
        (sortAscending : Bool) (count : Nat),
      (filter = "mosaic" ∨ filter = "multisig") →
      ∃ rows, transactionsByTypeWithFilter collection multisigAddresses
        initialMatch EntityType.transfer filter sortAscending count =
          .ok rows) := by
  refine ⟨?_, ?_, ?_⟩
  · intro countRange duration transaction typeStr filterStr limit hne
    exact filterRoute_invalid_of_type_ne countRange duration transaction typeStr
      filterStr limit hne
  · intro countRange duration transaction typeStr filterStr limit method anchor
      dispatchLimit hdisp
    by_cases hne : typeStr = "transfer"
    · subst hne
      refine ⟨rfl, ?_⟩
      by_cases hm : filterStr = "mosaic" ∨ filterStr = "multisig"
      · exact hm
      · exfalso
        push_neg at hm
        have hf : parseFilterArgument "transfer" filterStr = .error () := by
          simp [parseFilterArgument, namedFilterTypeParser,
            transferFilterTypeParser, hm.1, hm.2]
        rw [transactionsByTypeWithFilterRoute] at hdisp
        by_cases hd : validateDuration duration = true
        · rw [hd, if_neg (by simp)] at hdisp
          simp only [parseTransactionType, if_pos rfl, hf] at hdisp
          cases hdisp
        · rw [if_pos (by simp [Bool.not_eq_true] at hd; simp [hd])] at hdisp
          cases hdisp
    · exfalso
      rw [filterRoute_invalid_of_type_ne countRange duration transaction typeStr
        filterStr limit hne] at hdisp
      cases hdisp
  · intro collection multisigAddresses initialMatch filter sortAscending count hf
    rcases hf with rfl | rfl
    · refine ⟨findSortLimitSort (fun t => initialMatch t && hasMosaicsField t)
        (keySortLe txKey sortAscending) (keySortLe txKey false) count
        collection, ?_⟩
      rw [transactionsByTypeWithFilter, if_pos (by decide), if_pos (by decide)]
    · refine ⟨findSortLimitSort
        (fun t => initialMatch t &&
          decide (0 < multisigAccountCount multisigAddresses t))
        (keySortLe txKey sortAscending) (keySortLe txKey false) count
        collection, ?_⟩
      rw [transactionsByTypeWithFilter, if_pos (by decide),
        if_neg (by decide), if_pos (by decide)]

/-- C10 witness: the route with type registerNamespace raises the invalid
argument error regardless of the filter segment, a dispatching request
carries type transfer and filter mosaic, and the transfer plus mosaic query
produces a result rather than an exception. -/
theorem c10_nontransfer_filter_unreachable_witness :
    transactionsByTypeWithFilterRoute ⟨1, 100, 25⟩ "from" "latest"
      "registerNamespace" "mosaic" 25 = .invalidArgument ∧
    (("transfer" : String) = "transfer" ∧
      (("mosaic" : String) = "mosaic" ∨ ("mosaic" : String) = "multisig")) ∧
    (∃ rows, transactionsByTypeWithFilter [] [] (fun _ => true)
      EntityType.transfer "mosaic" false 25 = .ok rows) := by
  refine ⟨?_, ?_, ?_⟩
  · exact c10_nontransfer_filter_unreachable.1 ⟨1, 100, 25⟩ "from" "latest"
      "registerNamespace" "mosaic" 25 (by decide)
  · exact c10_nontransfer_filter_unreachable.2.1 ⟨1, 100, 25⟩ "from" "latest"
      "transfer" "mosaic" 25 "fromMax" none 25 (by decide)
  · exact c10_nontransfer_filter_unreachable.2.2 [] [] (fun _ => true) "mosaic"
      false 25 (Or.inl rfl)
